import Mathlib

/-!
Verification of the color-scheme preference mechanism and post listing of the
guisehn.com static blog.

The embedding follows `src/components/DarkModeSwitch.tsx` (the preference
widget) and the index page that sorts the blog collection by publication date.
Browser local storage is modelled as a partial map from string keys to string
values; the component's statements are modelled in source order, with the
fallible browser calls (storage reads and writes can throw) made explicit.
-/

namespace Site

/-- Browser localStorage: a partial map from keys to stored strings. -/
def Storage := String → Option String

/-- localStorage.getItem: returns the stored string, or none when absent. -/
def getItem (key : String) (st : Storage) : Option String :=
  st key

/-- localStorage.setItem: stores the value under the key, overwriting. -/
def setItem (key value : String) (st : Storage) : Storage :=
  fun k => if k = key then some value else st k

/-- Storage with nothing stored under any key. -/
def emptyStorage : Storage := fun _ => none

/-- The preference read performed at component initialization
(DarkModeSwitch.tsx lines 21-23):
`localStorage.getItem("color_scheme") ?? "system"`.
The `??` operator substitutes "system" only when getItem returns null. -/
def getPreference (st : Storage) : String :=
  (getItem "color_scheme" st).getD "system"

/-- The same initialization read with the storage read itself modelled as
fallible: in a browser, accessing localStorage can throw (storage disabled).
The source line `localStorage.getItem("color_scheme") ?? "system"` has no
try/catch around it, so a thrown error propagates out of the component. -/
def initPreference (readResult : Except String (Option String)) :
    Except String String :=
  match readResult with
  | Except.error e => Except.error e
  | Except.ok v => Except.ok (v.getD "system")

/-- A storage state holding a string outside the valid preference set. -/
def corruptStorage : Storage :=
  fun k => if k = "color_scheme" then some "banana" else none

/-- Modelled from the spec: the Preference enumeration (`system | light | dark`).
The source declares it as the string union type `Preference`; the host page
code that consumes it is not in the repository. -/
inductive Preference where
  | system
  | light
  | dark
deriving DecidableEq

/-- Modelled from the spec: an effective scheme, either Light or Dark (the OS
signal and the EffectiveScheme both range over this). -/
inductive Scheme where
  | light
  | dark
deriving DecidableEq

/-- Modelled from the spec: `resolveEffective(p, osSignal)` - the host page's
resolution of the effective scheme, absent from the repository sources (only
the `window.updateDarkMode` / `window.isDarkMode` declarations appear). Per the
spec: when p is not System it returns p unchanged; when p is System it returns
the OS signal. -/
def resolveEffective : Preference → Scheme → Scheme
  | Preference.light, _ => Scheme.light
  | Preference.dark, _ => Scheme.dark
  | Preference.system, os => os

/-- Modelled from the spec: the host page's parse of the stored preference
string; any string other than "light" and "dark" is treated as System. -/
def parsePreference (s : String) : Preference :=
  if s = "light" then Preference.light
  else if s = "dark" then Preference.dark
  else Preference.system

/-- The widget's observable state for a preference change: the in-memory
preference string (the `preference` useState), the browser storage, and how
many times the page-wide restyle routine `window.updateDarkMode` has been
invoked. -/
structure WidgetState where
  preference : String
  storage : Storage
  restyleCount : Nat

/-- updatePreference (DarkModeSwitch.tsx lines 34-38), the onChange handler of
the select control, in source order: `setPreference(preference)` transitions
the in-memory state, `localStorage.setItem("color_scheme", preference)` writes
the value under the fixed key, `window.updateDarkMode()` invokes the page-wide
restyle routine once. -/
def updatePreference (p : String) (st : WidgetState) : WidgetState :=
  { preference := p
    storage := setItem "color_scheme" p st.storage
    restyleCount := st.restyleCount + 1 }

/-- One observable effect of the updatePreference handler body. -/
inductive Effect where
  | setState (p : String)
  | write (p : String)
  | restyle
deriving DecidableEq, BEq

/-- Execution trace of updatePreference (DarkModeSwitch.tsx lines 34-38) with
the storage write modelled as fallible (setItem can throw, e.g. quota
exceeded). The three statements run synchronously in source order; there is no
try/catch, so when the write throws, execution stops before
`window.updateDarkMode()` - but `setPreference(preference)` has already run. -/
def updatePreferenceTrace (p : String) (writeFails : Bool) : List Effect :=
  if writeFails then
    [Effect.setState p, Effect.write p]
  else
    [Effect.setState p, Effect.write p, Effect.restyle]

/-- The widget state together with the ambient OS light/dark signal and a
render counter (the `useRerender` hook stores a Date; each call to `rerender`
replaces it, forcing a re-render, modelled as a counter bump). -/
structure FullState where
  preference : String
  storage : Storage
  osSignal : Scheme
  renderCount : Nat

/-- The OS media-query change event (DarkModeSwitch.tsx lines 29-31): the
environment changes the signal, and the registered listener body runs, which
only calls `rerender()`. Neither the preference state nor the storage is
touched. -/
def onOsChange (newSignal : Scheme) (st : FullState) : FullState :=
  { st with osSignal := newSignal, renderCount := st.renderCount + 1 }

/-- Modelled from the spec: `window.isDarkMode`, the host-supplied collaborator
reporting whether the document is currently rendered dark - the
EffectiveScheme resolved from the current preference and OS signal is Dark. -/
def isDarkMode (st : FullState) : Bool :=
  decide (resolveEffective (parsePreference st.preference) st.osSignal = Scheme.dark)

/-- The icon displayed by the widget. -/
inductive Icon where
  | sun
  | moon
deriving DecidableEq

/-- The rendered icon (DarkModeSwitch.tsx line 43):
`window.isDarkMode() ? <Moon /> : <Sun />`. -/
def renderedIcon (st : FullState) : Icon :=
  if isDarkMode st then Icon.moon else Icon.sun

/-- The icon that matches a given effective scheme. -/
def iconForScheme : Scheme → Icon
  | Scheme.dark => Icon.moon
  | Scheme.light => Icon.sun

/-- Hook bookkeeping for the component's single useEffect: how many OS
media-query change listeners are registered, and whether the effect has run
for this component instance. -/
structure HookState where
  listeners : Nat
  effectHasRun : Bool

/-- The useEffect body (DarkModeSwitch.tsx lines 28-31): obtains the
media query and registers exactly one change listener via addEventListener.
The second component is the cleanup returned by the effect: the source effect
returns nothing, so there is no cleanup and no unsubscribe handle. -/
def effectBody (listeners : Nat) : Nat × Option (Nat → Nat) :=
  (listeners + 1, none)

/-- One render of the component under the hook semantics of useEffect with an
empty dependency list (DarkModeSwitch.tsx line 32, `[]`): the effect body runs
after the first render of the instance and never again, since the empty
dependency list never changes. -/
def renderStep (st : HookState) : HookState :=
  if st.effectHasRun then st
  else { listeners := (effectBody st.listeners).1, effectHasRun := true }

/-- A freshly mounted component instance: first render with no listeners
registered and the effect not yet run. -/
def mountState : HookState :=
  renderStep { listeners := 0, effectHasRun := false }

/-- A blog post as the index page consumes it: slug plus the data fields used
by the listing. `pubDate` is the result of `Date.valueOf()`, the signed epoch
millisecond count. -/
structure Post where
  slug : String
  title : String
  description : String
  pubDate : Int

/-- The index page's post ordering (index page, frontmatter lines 21-23):
`(await getCollection("blog")).sort((a, b) => b.data.pubDate.valueOf() - a.data.pubDate.valueOf())`.
JavaScript Array.prototype.sort is a stable sort consistent with the
comparator; the comparator is nonpositive on (a, b) exactly when
b.pubDate <= a.pubDate, i.e. descending publication date. -/
def sortPosts (posts : List Post) : List Post :=
  posts.mergeSort (fun a b => decide (b.pubDate ≤ a.pubDate))

end Site

namespace Site

/-- C1 counterexample: with "banana" stored under "color_scheme" - a value not
in {"system", "light", "dark"} - the initialization read returns "banana", not
"system": the `??` fallback fires only on an absent value, so the claim that
any invalid stored value falls back to System is false on the code. -/
theorem c1_counterexample :
    getItem "color_scheme" corruptStorage = some "banana" ∧
    "banana" ∉ ["system", "light", "dark"] ∧
    getPreference corruptStorage ≠ "system" := by
  refine ⟨rfl, by decide, ?_⟩
  intro h
  simp [getPreference, getItem, corruptStorage] at h

/-- C1 amended: the initialization read returns the stored string unchanged
whenever one is present under "color_scheme" - even when it is not one of the
three valid variants - and returns "system" only when no value is stored. -/
theorem c1_amended (st : Storage) :
    (∀ v, getItem "color_scheme" st = some v → getPreference st = v) ∧
    (getItem "color_scheme" st = none → getPreference st = "system") := by
  constructor
  · intro v h
    simp [getPreference, h]
  · intro h
    simp [getPreference, h]

/-- C1 amended witness: evaluated at the corrupt storage ("banana" stored) and
at the empty storage. -/
theorem c1_amended_witness :
    getPreference corruptStorage = "banana" ∧
    getPreference emptyStorage = "system" :=
  ⟨(c1_amended corruptStorage).1 "banana" rfl,
   (c1_amended emptyStorage).2 rfl⟩

/-- C2 counterexample: when the storage read itself fails (localStorage access
throwing, e.g. storage disabled), the initialization read does not return
System - the error propagates, because the source has no try/catch. -/
theorem c2_counterexample :
    initPreference (Except.error "SecurityError") ≠ Except.ok "system" := by
  simp [initPreference]

/-- C3: round-trip - for every valid preference string s among "system",
"light" and "dark", writing s under the fixed key (updatePreference's
`localStorage.setItem("color_scheme", preference)`) and then performing the
initialization read returns s. -/
theorem c3_roundtrip (st : Storage) (s : String)
    (_h : s ∈ ["system", "light", "dark"]) :
    getPreference (setItem "color_scheme" s st) = s := by
  simp [getPreference, getItem, setItem]

/-- C3 witness: the round-trip evaluated at s = "dark" on empty storage. -/
theorem c3_roundtrip_witness :
    "dark" ∈ ["system", "light", "dark"] ∧
    getPreference (setItem "color_scheme" "dark" emptyStorage) = "dark" :=
  ⟨by decide, c3_roundtrip emptyStorage "dark" (by decide)⟩

/-- C2 amended: the initialization read returns a value whenever the storage
read succeeds, with "system" substituted for a missing value; when the storage
read itself fails, the failure propagates unhandled (the read raises). -/
theorem c2_amended :
    initPreference (Except.ok none) = Except.ok "system" ∧
    (∀ v, initPreference (Except.ok (some v)) = Except.ok v) ∧
    (∀ e, initPreference (Except.error e) = Except.error e) := by
  refine ⟨rfl, fun v => rfl, fun e => rfl⟩

/-- C4: resolveEffective is a (pure) function with, for every OS signal os:
resolveEffective Light os = Light, resolveEffective Dark os = Dark, and
resolveEffective System os = os. -/
theorem c4_resolveEffective (os : Scheme) :
    resolveEffective Preference.light os = Scheme.light ∧
    resolveEffective Preference.dark os = Scheme.dark ∧
    resolveEffective Preference.system os = os := by
  cases os <;> exact ⟨rfl, rfl, rfl⟩

/-- C5: for every selection of a new value in the widget's control (one of the
three option values), the handler writes the value to storage under the fixed
key "color_scheme", transitions the in-memory state to the new value, and
invokes the page-wide restyle routine exactly once. -/
theorem c5_updatePreference (p : String) (st : WidgetState)
    (_h : p ∈ ["system", "light", "dark"]) :
    (updatePreference p st).preference = p ∧
    getItem "color_scheme" (updatePreference p st).storage = some p ∧
    (updatePreference p st).restyleCount = st.restyleCount + 1 := by
  refine ⟨rfl, ?_, rfl⟩
  simp [updatePreference, getItem, setItem]

/-- C5 witness: selecting "dark" on a concrete initial widget state. -/
theorem c5_updatePreference_witness :
    "dark" ∈ ["system", "light", "dark"] ∧
    ((updatePreference "dark" ⟨"system", emptyStorage, 0⟩).preference = "dark" ∧
     getItem "color_scheme" (updatePreference "dark" ⟨"system", emptyStorage, 0⟩).storage
       = some "dark" ∧
     (updatePreference "dark" ⟨"system", emptyStorage, 0⟩).restyleCount = 0 + 1) :=
  ⟨by decide, c5_updatePreference "dark" ⟨"system", emptyStorage, 0⟩ (by decide)⟩

/-- C6: for an OS light/dark signal change delivered while the in-memory
preference is "system", the widget re-renders (render counter bumps), the
displayed icon matches the new effective scheme, and neither the in-memory
preference nor the storage changes (no write occurs). -/
theorem c6_osChange (st : FullState) (sig : Scheme)
    (h : st.preference = "system") :
    (onOsChange sig st).preference = st.preference ∧
    (onOsChange sig st).storage = st.storage ∧
    (onOsChange sig st).renderCount = st.renderCount + 1 ∧
    renderedIcon (onOsChange sig st) = iconForScheme sig := by
  refine ⟨rfl, rfl, rfl, ?_⟩
  cases sig <;>
    simp [onOsChange, renderedIcon, isDarkMode, parsePreference,
      resolveEffective, iconForScheme, h]

/-- C6 witness: preference "system", OS signal flips to dark on a concrete
state - the icon becomes the moon, storage and preference untouched. -/
theorem c6_osChange_witness :
    (⟨"system", emptyStorage, Scheme.light, 0⟩ : FullState).preference = "system" ∧
    ((onOsChange Scheme.dark ⟨"system", emptyStorage, Scheme.light, 0⟩).preference
        = "system" ∧
     (onOsChange Scheme.dark ⟨"system", emptyStorage, Scheme.light, 0⟩).storage
        = emptyStorage ∧
     (onOsChange Scheme.dark ⟨"system", emptyStorage, Scheme.light, 0⟩).renderCount
        = 0 + 1 ∧
     renderedIcon (onOsChange Scheme.dark ⟨"system", emptyStorage, Scheme.light, 0⟩)
        = iconForScheme Scheme.dark) :=
  ⟨rfl, c6_osChange ⟨"system", emptyStorage, Scheme.light, 0⟩ Scheme.dark rfl⟩

/-- C7 counterexample: when the storage write throws, the page-wide restyle
routine is NOT invoked - `window.updateDarkMode()` comes after
`localStorage.setItem` and nothing catches the exception - so the claim that a
failed write still leads to the restyle being invoked is false on the code. -/
theorem c7_counterexample :
    Effect.restyle ∉ updatePreferenceTrace "dark" true := by
  simp [updatePreferenceTrace]

/-- C7 amended: on a failed storage write, the in-memory state still
transitions (setPreference runs before the write) and the write is attempted
exactly once (no retry), but the restyle routine is not invoked: the exception
propagates past it. -/
theorem c7_amended (p : String) :
    Effect.setState p ∈ updatePreferenceTrace p true ∧
    (updatePreferenceTrace p true).filter
      (fun e => match e with | Effect.write _ => true | _ => false)
      = [Effect.write p] ∧
    Effect.restyle ∉ updatePreferenceTrace p true := by
  refine ⟨by simp [updatePreferenceTrace], rfl, by simp [updatePreferenceTrace]⟩

/-- C8: in the handler's successful execution, the storage write precedes the
invocation of the page-wide restyle routine - the three statements run
synchronously in source order, so the restyle observes the new stored value. -/
theorem c8_write_before_restyle (p : String) :
    ∃ i j, i < j ∧
      (updatePreferenceTrace p false).get? i = some (Effect.write p) ∧
      (updatePreferenceTrace p false).get? j = some Effect.restyle := by
  exact ⟨1, 2, by decide, by simp [updatePreferenceTrace], by simp [updatePreferenceTrace]⟩

/-- C9: the OS media-query change listener is registered exactly once per
component mount - after the mount and any number n of further renders exactly
one listener is registered, because the effect's dependency list is empty -
and the effect returns no cleanup, so no unsubscribe handle exists and the
listener is never unregistered. -/
theorem c9_listener_once (n : Nat) (k : Nat) :
    (renderStep^[n] mountState).listeners = 1 ∧
    (effectBody k).2 = none := by
  refine ⟨?_, rfl⟩
  have h : renderStep^[n] mountState = ⟨1, true⟩ := by
    induction n with
    | zero => rfl
    | succ m ih => rw [Function.iterate_succ_apply', ih]; rfl
  rw [h]

/-- C10: the index page renders the blog posts in descending order of
publication date: in the sorted list every adjacent pair satisfies
later.pubDate <= earlier.pubDate. -/
theorem c10_posts_sorted (posts : List Post) :
    List.Chain' (fun a b => b.pubDate ≤ a.pubDate) (sortPosts posts) := by
  have h := @List.sorted_mergeSort Post
    (fun a b => decide (b.pubDate ≤ a.pubDate))
    (fun a b c h1 h2 => by
      simp only [decide_eq_true_eq] at h1 h2 ⊢
      exact le_trans h2 h1)
    (fun a b => by
      simp only [Bool.or_eq_true, decide_eq_true_eq]
      exact le_total b.pubDate a.pubDate)
    posts
  have h2 : List.Pairwise (fun a b : Post => b.pubDate ≤ a.pubDate)
      (sortPosts posts) := by
    refine h.imp ?_
    intro a b hab
    exact of_decide_eq_true hab
  exact h2.chain'

end Site
